import Mathlib

/-!
Shallow embedding of `LocalDiscoveryUIHandler`
(chrome/browser/ui/webui/local_discovery/local_discovery_ui_handler.cc)
and proofs of the specification claims about it.

The handler is a stateful coordinator: it maintains a registry of
discovered devices (`device_descriptions_`, a `std::map` from device name
to `DeviceDescription`), drives a multi-step registration handshake, and
reports everything to the presentation layer through
`web_ui()->CallJavascriptFunction` calls, modelled here as a list of
`WebNotification` values emitted by each entry point.
-/

namespace LocalDiscovery

/-- `net::HostPortPair`: the host/port part of a device address. -/
structure HostPortPair where
  host : String
  port : Nat
deriving Repr, DecidableEq

/-- `local_discovery::DeviceDescription` as used by the handler:
`address` (host/port), `ip_address` (resolved IP bytes, empty when
unresolved), `url` (cloud service base URL) and `id` (empty until the
device is claimed). -/
structure DeviceDescription where
  address : HostPortPair
  ip_address : List Nat
  url : String
  id : String
deriving Repr, DecidableEq

/-- The value-initialized `DeviceDescription` that C++ `std::map::operator[]`
inserts for an absent key: empty host, port 0, no IP, empty url and id. -/
def defaultDeviceDescription : DeviceDescription :=
  { address := { host := "", port := 0 }, ip_address := [], url := "", id := "" }

/-- The registry `device_descriptions_` (a `std::map<std::string,
DeviceDescription>`), modelled as its lookup function. -/
def Registry : Type := String → Option DeviceDescription

/-- `device_descriptions_[name] = description` on a map: replace (or insert)
the entry for `name`. -/
def Registry.store (r : Registry) (name : String) (d : DeviceDescription) : Registry :=
  fun m => if m = name then some d else r m

/-- `device_descriptions_.erase(name)`: delete the entry if present,
a no-op otherwise. -/
def Registry.erase (r : Registry) (name : String) : Registry :=
  fun m => if m = name then none else r m

/-- C++ `std::map::operator[]`: return the mapped value, default-inserting
when the key is absent. Returns the value together with the possibly grown
map — this insertion side effect is what claim C10 is about. -/
def Registry.opIndex (r : Registry) (name : String) : DeviceDescription × Registry :=
  match r name with
  | some d => (d, r)
  | none => (defaultDeviceDescription, r.store name defaultDeviceDescription)

/-- `net::IPAddressToString`, modelled on the byte list (dotted decimal;
the exact rendering is irrelevant to every claim). -/
def ipAddressToString (bytes : List Nat) : String :=
  String.intercalate "." (bytes.map toString)

/-- The `info` dictionary `DeviceChanged` builds for
`local_discovery.onServiceUpdate`: domain/port from the address, the IP
string (empty when the IP is unresolved), the constant `lastSeen`, and
`registered` = "the claimed id is nonempty". -/
structure DeviceInfo where
  domain : String
  port : Nat
  ip : String
  lastSeen : String
  registered : Bool
deriving Repr, DecidableEq

/-- Builds the `info` dictionary from a description exactly as
`LocalDiscoveryUIHandler::DeviceChanged` does. -/
def deviceInfoOf (d : DeviceDescription) : DeviceInfo :=
  { domain := d.address.host
    port := d.address.port
    ip := if d.ip_address = [] then "" else ipAddressToString d.ip_address
    lastSeen := "unknown"
    registered := d.id ≠ "" }

/-- One `web_ui()->CallJavascriptFunction` call made by the handler. -/
inductive WebNotification where
  /-- `local_discovery.onServiceUpdate(name, info)`; `none` is the
  `CreateNullValue()` marker sent on removal. -/
  | serviceUpdate (name : String) (info : Option DeviceInfo)
  /-- `local_discovery.registrationFailed(message)` -/
  | registrationFailed (message : String)
  /-- `local_discovery.registrationSuccess(id)` -/
  | registrationSuccess (id : String)
  /-- `local_discovery.infoFailed(message)` -/
  | infoFailed (message : String)
  /-- `local_discovery.renderInfo(json)`; the payload is opaque here. -/
  | renderInfo (json : String)
  /-- `local_discovery.requestUser(accountsAnnotatedList)` -/
  | requestUser (accounts : List (Int × String))
deriving Repr, DecidableEq

/-- The handler's session state fields used by the claims.
(The C++ constructor leaves `current_register_user_index_` uninitialized;
every theorem below is insensitive to its initial value.) -/
structure HandlerState where
  device_descriptions : Registry
  current_register_device : String
  current_register_user_index : Int
  xsrf_token_for_primary_user : String

/-- `LocalDiscoveryUIHandler::DeviceChanged`: store the full new
description in the registry, then send exactly one `onServiceUpdate`
notification carrying the name and the info built from the description. -/
def deviceChanged (s : HandlerState) (name : String) (description : DeviceDescription) :
    HandlerState × List WebNotification :=
  ({ s with device_descriptions := s.device_descriptions.store name description },
   [.serviceUpdate name (some (deviceInfoOf description))])

/-- `LocalDiscoveryUIHandler::DeviceRemoved`: erase the entry, then send
exactly one `onServiceUpdate` notification carrying the name and the null
marker. -/
def deviceRemoved (s : HandlerState) (name : String) :
    HandlerState × List WebNotification :=
  ({ s with device_descriptions := s.device_descriptions.erase name },
   [.serviceUpdate name none])

/-- A discovery event delivered by the `PrivetDeviceLister`. -/
inductive DeviceEvent where
  | changed (name : String) (description : DeviceDescription)
  | removed (name : String)
deriving Repr, DecidableEq

/-- Dispatch one discovery event to the handler. -/
def applyEvent (s : HandlerState) : DeviceEvent → HandlerState × List WebNotification
  | .changed name d => deviceChanged s name d
  | .removed name => deviceRemoved s name

/-- Deliver a sequence of discovery events, collecting the notifications
in emission order. -/
def runEvents (s : HandlerState) : List DeviceEvent → HandlerState × List WebNotification
  | [] => (s, [])
  | e :: rest =>
    let (s1, ns1) := applyEvent s e
    let (s2, ns2) := runEvents s1 rest
    (s2, ns1 ++ ns2)

/-- The effect of the last event in the list concerning `name`:
`some (some d)` if it was a change to `d`, `some none` if it was a
removal, `none` if no event concerns `name`. -/
def lastEventFor (name : String) : List DeviceEvent → Option (Option DeviceDescription)
  | [] => none
  | e :: rest =>
    match lastEventFor name rest with
    | some v => some v
    | none =>
      match e with
      | .changed n d => if n = name then some (some d) else none
      | .removed n => if n = name then some none else none

/-- The single notification each discovery event produces. -/
def eventNotification : DeviceEvent → WebNotification
  | .changed name d => .serviceUpdate name (some (deviceInfoOf d))
  | .removed name => .serviceUpdate name none

theorem runEvents_notifications (evs : List DeviceEvent) :
    ∀ s : HandlerState, (runEvents s evs).2 = evs.map eventNotification := by
  induction evs with
  | nil => intro s; rfl
  | cons e rest ih =>
    intro s
    cases e with
    | changed name d =>
      simp [runEvents, applyEvent, deviceChanged, ih, eventNotification]
    | removed name =>
      simp [runEvents, applyEvent, deviceRemoved, ih, eventNotification]

theorem runEvents_registry (evs : List DeviceEvent) :
    ∀ (s : HandlerState) (name : String),
      (runEvents s evs).1.device_descriptions name =
        match lastEventFor name evs with
        | some v => v
        | none => s.device_descriptions name := by
  induction evs with
  | nil => intro s name; rfl
  | cons e rest ih =>
    intro s name
    cases e with
    | changed n d =>
      show (runEvents (deviceChanged s n d).1 rest).1.device_descriptions name = _
      rw [ih]
      simp only [lastEventFor]
      cases h : lastEventFor name rest with
      | some v => simp
      | none =>
        simp only [deviceChanged, Registry.store]
        by_cases hn : n = name
        · subst hn; simp
        · have hn' : ¬ name = n := fun hc => hn hc.symm
          simp [hn, hn']
    | removed n =>
      show (runEvents (deviceRemoved s n).1 rest).1.device_descriptions name = _
      rw [ih]
      simp only [lastEventFor]
      cases h : lastEventFor name rest with
      | some v => simp
      | none =>
        simp only [deviceRemoved, Registry.erase]
        by_cases hn : n = name
        · subst hn; simp
        · have hn' : ¬ name = n := fun hc => hn hc.symm
          simp [hn, hn']

/-- Claim C1: for every sequence of device-changed/device-removed events,
the registry's visible state afterwards equals the last event per device
name (a changed event stores the full new description, a removed event
erases the entry), and each event produces exactly one presentation-layer
notification, in arrival order, carrying the device name and either the
info built from the updated description or the null marker. -/
theorem registry_last_event_and_notifications
    (s : HandlerState) (evs : List DeviceEvent) (name : String) :
    ((runEvents s evs).1.device_descriptions name =
      match lastEventFor name evs with
      | some v => v
      | none => s.device_descriptions name) ∧
    (runEvents s evs).2 = evs.map eventNotification := by
  exact ⟨runEvents_registry evs s name, runEvents_notifications evs s⟩

/-- `kAccountIndexUseOAuth2 = -1`: the token-path sentinel, the
distinguished account-selector value meaning "use bearer-token (OAuth2)
authorization". -/
def kAccountIndexUseOAuth2 : Int := -1

/-- The enumeration loop of `OnCloudPrintAccountsResolved`: walk the
resolver-returned accounts with a running `account_index` (a C++ `int`)
starting at the given value, skipping any account equal to
`sync_account`, and tag each remaining account with its index. -/
def annotateSecondary (sync_account : String) : List String → Int → List (Int × String)
  | [], _ => []
  | a :: rest, account_index =>
    if a = sync_account then annotateSecondary sync_account rest (account_index + 1)
    else (account_index, a) :: annotateSecondary sync_account rest (account_index + 1)

/-- The full `accounts_annotated_list` built by
`OnCloudPrintAccountsResolved`: when a signed-in (sync) account exists it
comes first, tagged with the token-path sentinel; then the enumeration
loop over the resolver-returned accounts starting at index 0. -/
def annotatedAccounts (sync_account : String) (accounts : List String) :
    List (Int × String) :=
  (if sync_account ≠ "" then [(kAccountIndexUseOAuth2, sync_account)] else [])
    ++ annotateSecondary sync_account accounts 0

/-- `LocalDiscoveryUIHandler::OnCloudPrintAccountsResolved`: store the
returned XSRF token in `xsrf_token_for_primary_user_` (unconditionally),
then send the annotated account list to the presentation layer via
`local_discovery.requestUser`. The signed-in account (`GetSyncAccount()`)
is an external input, passed as a parameter. -/
def onCloudPrintAccountsResolved (s : HandlerState) (accounts : List String)
    (xsrf_token : String) (sync_account : String) :
    HandlerState × List WebNotification :=
  ({ s with xsrf_token_for_primary_user := xsrf_token },
   [.requestUser (annotatedAccounts sync_account accounts)])

/-- Modelled from the spec's words, for comparison with the code's
`annotatedAccounts`: "the first list entry is the signed-in account (if
any) tagged with the token-path sentinel, followed by every other
returned account tagged with its positional index, skipping any account
that duplicates the signed-in account". -/
def specAnnotatedAccounts (signedIn : String) (accounts : List String) :
    List (Int × String) :=
  (if signedIn ≠ "" then [(kAccountIndexUseOAuth2, signedIn)] else [])
    ++ (accounts.enum.filter (fun p => p.2 ≠ signedIn)).map
        (fun p => ((p.1 : Int), p.2))

theorem annotateSecondary_eq_enumFrom (sync_account : String) (l : List String) :
    ∀ n : Nat,
      annotateSecondary sync_account l (n : Int) =
        ((List.enumFrom n l).filter (fun p => p.2 ≠ sync_account)).map
          (fun p => ((p.1 : Int), p.2)) := by
  induction l with
  | nil => intro n; rfl
  | cons a rest ih =>
    intro n
    have hcast : ((n : Int) + 1) = ((n + 1 : Nat) : Int) := (Nat.cast_add_one n).symm
    have henum : List.enumFrom n (a :: rest) = (n, a) :: List.enumFrom (n + 1) rest := rfl
    by_cases h : a = sync_account
    · have hstep : annotateSecondary sync_account (a :: rest) (n : Int)
          = annotateSecondary sync_account rest ((n : Int) + 1) := by
        simp [annotateSecondary, h]
      rw [hstep, hcast, ih (n + 1), henum, List.filter_cons]
      simp [h]
    · have hstep : annotateSecondary sync_account (a :: rest) (n : Int)
          = ((n : Int), a) :: annotateSecondary sync_account rest ((n : Int) + 1) := by
        simp [annotateSecondary, h]
      rw [hstep, hcast, ih (n + 1), henum, List.filter_cons]
      simp [h]

/-- Claim C7: the annotated list sent to the presentation layer is: first
the signed-in account tagged with the token-path sentinel (present only
when a signed-in account exists), then every other returned account in
resolver order tagged with its positional index, omitting any returned
account whose name equals the signed-in account. -/
theorem annotated_accounts_matches_spec (sync_account : String)
    (accounts : List String) :
    annotatedAccounts sync_account accounts =
      specAnnotatedAccounts sync_account accounts := by
  unfold annotatedAccounts specAnnotatedAccounts
  have h := annotateSecondary_eq_enumFrom sync_account accounts 0
  simpa [List.enum] using congrArg
    (fun t => (if sync_account ≠ "" then [(kAccountIndexUseOAuth2, sync_account)] else []) ++ t) h

theorem annotateSecondary_index_lower_bound (sync_account : String)
    (l : List String) :
    ∀ (i : Int) (p : Int × String),
      p ∈ annotateSecondary sync_account l i → i ≤ p.1 := by
  induction l with
  | nil => intro i p hp; simp [annotateSecondary] at hp
  | cons a rest ih =>
    intro i p hp
    by_cases h : a = sync_account
    · simp only [annotateSecondary, if_pos h] at hp
      have := ih (i + 1) p hp
      omega
    · simp only [annotateSecondary, if_neg h, List.mem_cons] at hp
      rcases hp with rfl | hp
      · simp
      · have := ih (i + 1) p hp
        omega

/-- Counterexample to claim C2: with signed-in account `"a@x"` and
resolver-returned list `["b@x"]`, the annotated list the coordinator
builds contains the secondary entry `(0, "b@x")` — index 0 is not
excluded from the secondary-account entries. -/
theorem secondary_index_zero_emitted :
    annotatedAccounts "a@x" ["b@x"] =
      [(kAccountIndexUseOAuth2, "a@x"), (0, "b@x")] ∧
    (0, "b@x") ∈ annotatedAccounts "a@x" ["b@x"] := by
  constructor
  · rfl
  · rw [show annotatedAccounts "a@x" ["b@x"] =
        [(kAccountIndexUseOAuth2, "a@x"), (0, "b@x")] from rfl]
    simp

/-- Claim C2 as amended: the enumeration excludes a returned account from
the secondary list exactly when its name equals the signed-in account,
not index 0 as such; consequently a secondary entry tagged 0 appears if
and only if the resolver's list is nonempty and its first account differs
from the signed-in account. -/
theorem secondary_index_zero_iff_first_differs (sync_account : String)
    (accounts : List String) :
    (∃ a, (0, a) ∈ annotatedAccounts sync_account accounts) ↔
      (∃ a, accounts.head? = some a ∧ a ≠ sync_account) := by
  constructor
  · rintro ⟨a, ha⟩
    unfold annotatedAccounts at ha
    rw [List.mem_append] at ha
    rcases ha with ha | ha
    · by_cases hs : sync_account = ""
      · simp [hs] at ha
      · simp only [ne_eq, hs, not_false_iff, if_true, List.mem_singleton,
          Prod.mk.injEq] at ha
        exact absurd ha.1 (by unfold kAccountIndexUseOAuth2; omega)
    · cases accounts with
      | nil => simp [annotateSecondary] at ha
      | cons x rest =>
        by_cases hx : x = sync_account
        · simp only [annotateSecondary, if_pos hx] at ha
          have := annotateSecondary_index_lower_bound sync_account rest
            (0 + 1) (0, a) ha
          omega
        · simp only [annotateSecondary, if_neg hx, List.mem_cons] at ha
          rcases ha with h1 | ha
          · have hax : a = x := congrArg Prod.snd h1
            exact ⟨x, rfl, hx⟩
          · have := annotateSecondary_index_lower_bound sync_account rest
              (0 + 1) (0, a) ha
            omega
  · rintro ⟨a, ha, hne⟩
    cases accounts with
    | nil => simp at ha
    | cons x rest =>
      have hxa : x = a := by simpa using ha
      refine ⟨x, ?_⟩
      unfold annotatedAccounts
      rw [List.mem_append]
      right
      have hne' : ¬ x = sync_account := by rw [hxa]; exact hne
      simp [annotateSecondary, hne']

/-- Counterexample to claim C3: two successive primary-account
resolutions in the same session returning XSRF tokens `"t1"` then `"t2"`
leave `xsrf_token_for_primary_user_` equal to `"t2"` — the second
resolution changed the cached artifact, so it is not captured exactly
once. -/
theorem primary_token_overwritten_counterexample :
    ((onCloudPrintAccountsResolved
        ((onCloudPrintAccountsResolved
            { device_descriptions := fun _ => none
              current_register_device := ""
              current_register_user_index := 0
              xsrf_token_for_primary_user := "" }
            ["a@x"] "t1" "a@x").1)
        ["a@x"] "t2" "a@x").1.xsrf_token_for_primary_user = "t2") ∧
    ((onCloudPrintAccountsResolved
        { device_descriptions := fun _ => none
          current_register_device := ""
          current_register_user_index := 0
          xsrf_token_for_primary_user := "" }
        ["a@x"] "t1" "a@x").1.xsrf_token_for_primary_user = "t1") ∧
    ("t2" : String) ≠ "t1" := by
  refine ⟨rfl, rfl, by decide⟩

/-- Claim C3 as amended: the cached primary authorization artifact is
overwritten on every primary-account resolution — after each resolution
it equals the artifact that resolution returned (it is not frozen at
first capture). -/
theorem primary_token_equals_latest (s : HandlerState) (accounts : List String)
    (xsrf_token : String) (sync_account : String) :
    (onCloudPrintAccountsResolved s accounts xsrf_token sync_account).1.xsrf_token_for_primary_user
      = xsrf_token := rfl

/-- `GetCloudPrintBaseUrl`: `device_descriptions_[device_name].url` —
note the `operator[]` access, which default-inserts an absent key.
Returns the url together with the possibly grown registry. -/
def getCloudPrintBaseUrl (r : Registry) (device_name : String) : String × Registry :=
  let (d, r2) := r.opIndex device_name
  (d.url, r2)

/-- `kPrivetAutomatedClaimURLFormat = "%s/confirm?token=%s"` applied to a
base URL and a claim token. -/
def automatedClaimUrl (base_url token : String) : String :=
  base_url ++ "/confirm?token=" ++ token

/-- The externally visible action `OnPrivetRegisterClaimToken` ends with:
either a registration-failure report, the start of a bearer-token
(OAuth2) confirm flow, the start of a cookie-authenticated confirm flow,
or the start of a `CloudPrintAccountManager` resolution scoped to a
secondary account index (whose completion then starts a cookie flow). -/
inductive ClaimTokenAction where
  | fail (message : String)
  | startOAuth2Confirm (claimUrl : String)
  | startCookieConfirm (userIndex : Int) (xsrfToken : String) (claimUrl : String)
  | resolveSecondaryAccount (selector : Int) (claimUrl : String)
deriving Repr, DecidableEq

/-- `LocalDiscoveryUIHandler::OnPrivetRegisterClaimToken`. `clientName` is
`current_http_client_->GetName()`; `tokenServiceAvailable` models whether
`ProfileOAuth2TokenServiceFactory::GetForProfile` returns a service. The
function first re-checks registry membership
(`device_descriptions_.count(name) == 0`), then builds the automated
claim URL from the device's cloud base URL, then branches on
`current_register_user_index_`. -/
def onPrivetRegisterClaimToken (s : HandlerState) (clientName : String)
    (token : String) (tokenServiceAvailable : Bool) :
    HandlerState × ClaimTokenAction :=
  if s.device_descriptions clientName = none then
    (s, .fail "Device no longer exists")
  else
    let (base_url, r2) := getCloudPrintBaseUrl s.device_descriptions clientName
    let s2 := { s with device_descriptions := r2 }
    let automated_claim_url := automatedClaimUrl base_url token
    if s.current_register_user_index = kAccountIndexUseOAuth2 then
      if tokenServiceAvailable then
        (s2, .startOAuth2Confirm automated_claim_url)
      else
        (s2, .fail "Could not get token service")
    else if s.current_register_user_index = 0 then
      (s2, .startCookieConfirm 0 s.xsrf_token_for_primary_user automated_claim_url)
    else
      (s2, .resolveSecondaryAccount s.current_register_user_index automated_claim_url)

/-- `LocalDiscoveryUIHandler::OnXSRFTokenForSecondaryAccount`: the
completion callback of the secondary-account `CloudPrintAccountManager`
call; it starts the cookie confirm flow with the current user index and
the xsrf token that call returned (the returned account list is ignored). -/
def onXSRFTokenForSecondaryAccount (s : HandlerState)
    (automated_claim_url : String) (xsrf_token : String) : ClaimTokenAction :=
  .startCookieConfirm s.current_register_user_index xsrf_token automated_claim_url

/-- The claim-token callback composed with the (single-completion)
secondary-account resolution it may start: `secondaryResolver` models the
Account Resolver's returned xsrf token for a given selector. Returns the
resulting state, the list of additional Account Resolver calls issued
(their selectors, in order), and the final action. -/
def runClaimToken (s : HandlerState) (clientName : String) (token : String)
    (tokenServiceAvailable : Bool) (secondaryResolver : Int → String) :
    HandlerState × List Int × ClaimTokenAction :=
  match onPrivetRegisterClaimToken s clientName token tokenServiceAvailable with
  | (s2, .resolveSecondaryAccount selector claimUrl) =>
    (s2, [selector], onXSRFTokenForSecondaryAccount s2 claimUrl (secondaryResolver selector))
  | (s2, act) => (s2, [], act)

theorem opIndex_of_present (r : Registry) (name : String) (d : DeviceDescription)
    (h : r name = some d) : r.opIndex name = (d, r) := by
  unfold Registry.opIndex
  rw [h]

/-- Claim C5: a claim-token callback whose device is no longer present in
the registry reports exactly the "Device no longer exists" failure,
starts no confirm flow of either kind, issues no further Account Resolver
call, and leaves the state unchanged. -/
theorem claim_token_device_gone (s : HandlerState) (clientName token : String)
    (tokenServiceAvailable : Bool) (secondaryResolver : Int → String)
    (h : s.device_descriptions clientName = none) :
    runClaimToken s clientName token tokenServiceAvailable secondaryResolver =
      (s, [], .fail "Device no longer exists") := by
  unfold runClaimToken onPrivetRegisterClaimToken
  rw [if_pos h]

/-- Witness for `claim_token_device_gone`: the empty registry at device
`"printer-1"`. -/
theorem claim_token_device_gone_witness :
    runClaimToken
      { device_descriptions := fun _ => none
        current_register_device := "printer-1"
        current_register_user_index := kAccountIndexUseOAuth2
        xsrf_token_for_primary_user := "" }
      "printer-1" "tok" false (fun _ => "") =
      ({ device_descriptions := fun _ => none
         current_register_device := "printer-1"
         current_register_user_index := kAccountIndexUseOAuth2
         xsrf_token_for_primary_user := "" },
       [], .fail "Device no longer exists") :=
  claim_token_device_gone _ _ _ _ _ rfl

/-- Claim C6: on a claim-token callback with the account selector equal
to the token-path sentinel (and the device still registered), if no
bearer-token provider is available the coordinator reports exactly the
"Could not get token service" failure and starts no confirm flow and no
further Account Resolver call; if one is available it starts a
bearer-token confirm flow against the automated claim URL. -/
theorem claim_token_oauth2_branch (s : HandlerState) (clientName token : String)
    (tokenServiceAvailable : Bool) (secondaryResolver : Int → String)
    (d : DeviceDescription)
    (hdev : s.device_descriptions clientName = some d)
    (hidx : s.current_register_user_index = kAccountIndexUseOAuth2) :
    (tokenServiceAvailable = false →
      runClaimToken s clientName token tokenServiceAvailable secondaryResolver =
        (s, [], .fail "Could not get token service")) ∧
    (tokenServiceAvailable = true →
      runClaimToken s clientName token tokenServiceAvailable secondaryResolver =
        (s, [], .startOAuth2Confirm (automatedClaimUrl d.url token))) := by
  obtain ⟨dd, crd, idx, xsrf⟩ := s
  have hdev' : dd clientName = some d := hdev
  have hidx' : idx = kAccountIndexUseOAuth2 := hidx
  subst hidx'
  have hne : ¬ dd clientName = none := by rw [hdev']; simp
  constructor
  · intro hts
    subst hts
    unfold runClaimToken onPrivetRegisterClaimToken
    rw [if_neg hne]
    simp [getCloudPrintBaseUrl, opIndex_of_present _ _ _ hdev']
  · intro hts
    subst hts
    unfold runClaimToken onPrivetRegisterClaimToken
    rw [if_neg hne]
    simp [getCloudPrintBaseUrl, opIndex_of_present _ _ _ hdev']

/-- Witness for `claim_token_oauth2_branch`: device `"printer-1"` is
registered with base URL `"https://cp"`, the selector is the token-path
sentinel; without a token service the failure is reported, with one the
OAuth2 confirm flow starts against the claim URL. -/
theorem claim_token_oauth2_branch_witness :
    (runClaimToken
        { device_descriptions := fun n =>
            if n = "printer-1" then
              some { address := { host := "h", port := 8080 }, ip_address := [],
                     url := "https://cp", id := "" }
            else none
          current_register_device := "printer-1"
          current_register_user_index := kAccountIndexUseOAuth2
          xsrf_token_for_primary_user := "" }
        "printer-1" "tok" false (fun _ => "")).2.2 =
      .fail "Could not get token service" ∧
    (runClaimToken
        { device_descriptions := fun n =>
            if n = "printer-1" then
              some { address := { host := "h", port := 8080 }, ip_address := [],
                     url := "https://cp", id := "" }
            else none
          current_register_device := "printer-1"
          current_register_user_index := kAccountIndexUseOAuth2
          xsrf_token_for_primary_user := "" }
        "printer-1" "tok" true (fun _ => "")).2.2 =
      .startOAuth2Confirm "https://cp/confirm?token=tok" := by
  constructor
  · rw [(claim_token_oauth2_branch _ _ _ _ _
      { address := { host := "h", port := 8080 }, ip_address := [],
        url := "https://cp", id := "" } (by simp) rfl).1 rfl]
  · rw [(claim_token_oauth2_branch _ _ _ _ _
      { address := { host := "h", port := 8080 }, ip_address := [],
        url := "https://cp", id := "" } (by simp) rfl).2 rfl]
    decide

/-- Claim C4: on a claim-token callback (device still registered) with
the current account selector equal to 0, the coordinator starts the
cookie-authenticated confirm flow using the cached primary authorization
artifact directly, issuing no additional Account Resolver call; with a
selector strictly greater than 0, it issues exactly one additional
Account Resolver call scoped to that index and starts the
cookie-authenticated confirm flow with the artifact that call returns. -/
theorem claim_token_cookie_branches (s : HandlerState) (clientName token : String)
    (tokenServiceAvailable : Bool) (secondaryResolver : Int → String)
    (d : DeviceDescription)
    (hdev : s.device_descriptions clientName = some d) :
    (s.current_register_user_index = 0 →
      runClaimToken s clientName token tokenServiceAvailable secondaryResolver =
        (s, [], .startCookieConfirm 0 s.xsrf_token_for_primary_user
          (automatedClaimUrl d.url token))) ∧
    (0 < s.current_register_user_index →
      runClaimToken s clientName token tokenServiceAvailable secondaryResolver =
        (s, [s.current_register_user_index],
         .startCookieConfirm s.current_register_user_index
           (secondaryResolver s.current_register_user_index)
           (automatedClaimUrl d.url token))) := by
  obtain ⟨dd, crd, idx, xsrf⟩ := s
  have hdev' : dd clientName = some d := hdev
  have hne : ¬ dd clientName = none := by rw [hdev']; simp
  constructor
  · intro hidx
    have hidx' : idx = 0 := hidx
    subst hidx'
    unfold runClaimToken onPrivetRegisterClaimToken
    rw [if_neg hne]
    simp [getCloudPrintBaseUrl, opIndex_of_present _ _ _ hdev', kAccountIndexUseOAuth2]
  · intro hidx
    have hidx' : (0 : Int) < idx := hidx
    have hsent : ¬ idx = kAccountIndexUseOAuth2 := by
      unfold kAccountIndexUseOAuth2; omega
    have hzero : ¬ idx = 0 := by omega
    unfold runClaimToken onPrivetRegisterClaimToken
    rw [if_neg hne]
    simp [getCloudPrintBaseUrl, opIndex_of_present _ _ _ hdev', hsent, hzero,
      onXSRFTokenForSecondaryAccount]

/-- Witness for `claim_token_cookie_branches`: with device `"printer-1"`
registered at base URL `"https://cp"` and cached primary artifact
`"xsrf0"`, selector 0 starts the cookie flow with `"xsrf0"` and no
resolver call; selector 2 issues exactly one resolver call scoped to 2
and starts the cookie flow with the artifact that call returns. -/
theorem claim_token_cookie_branches_witness :
    (runClaimToken
        { device_descriptions := fun n =>
            if n = "printer-1" then
              some { address := { host := "h", port := 8080 }, ip_address := [],
                     url := "https://cp", id := "" }
            else none
          current_register_device := "printer-1"
          current_register_user_index := 0
          xsrf_token_for_primary_user := "xsrf0" }
        "printer-1" "tok" true (fun i => "sec" ++ toString i)).2 =
      ([], .startCookieConfirm 0 "xsrf0" "https://cp/confirm?token=tok") ∧
    (runClaimToken
        { device_descriptions := fun n =>
            if n = "printer-1" then
              some { address := { host := "h", port := 8080 }, ip_address := [],
                     url := "https://cp", id := "" }
            else none
          current_register_device := "printer-1"
          current_register_user_index := 2
          xsrf_token_for_primary_user := "xsrf0" }
        "printer-1" "tok" true (fun i => "sec" ++ toString i)).2 =
      ([2], .startCookieConfirm 2 "sec2" "https://cp/confirm?token=tok") := by
  constructor
  · rw [(claim_token_cookie_branches _ _ _ _ _
      { address := { host := "h", port := 8080 }, ip_address := [],
        url := "https://cp", id := "" } (by simp)).1 rfl]
    decide
  · rw [(claim_token_cookie_branches _ _ _ _ _
      { address := { host := "h", port := 8080 }, ip_address := [],
        url := "https://cp", id := "" } (by simp)).2 (by decide)]
    decide

/-- `net::HTTP_OK`. -/
def HTTP_OK : Int := 200

/-- `LocalDiscoveryUIHandler::OnPrivetInfoDone`: if the HTTP status is
not OK or no JSON payload was returned, report `"HTTP error <code>"` via
`local_discovery.infoFailed` and forward nothing; otherwise forward the
raw payload via `local_discovery.renderInfo`. Returns (forwarded payload,
emitted notifications). -/
def onPrivetInfoDone (http_code : Int) (json_value : Option String) :
    Option String × List WebNotification :=
  if http_code ≠ HTTP_OK ∨ json_value = none then
    (none, [.infoFailed ("HTTP error " ++ toString http_code)])
  else
    match json_value with
    | some payload => (some payload, [.renderInfo payload])
    | none => (none, [])

/-- Claim C8: the raw payload of an info-operation response is forwarded
to the presentation layer if and only if the HTTP status is OK (200) and
a payload was returned; in every other case the info-error notification
is reported and nothing is forwarded. -/
theorem info_done_forwarding (http_code : Int) (json_value : Option String) :
    (∀ p : String, (onPrivetInfoDone http_code json_value).1 = some p ↔
      (http_code = HTTP_OK ∧ json_value = some p)) ∧
    (((onPrivetInfoDone http_code json_value).1 = none ∧
      (onPrivetInfoDone http_code json_value).2 =
        [.infoFailed ("HTTP error " ++ toString http_code)]) ↔
      ¬ (http_code = HTTP_OK ∧ json_value ≠ none)) := by
  unfold onPrivetInfoDone
  by_cases hc : http_code = HTTP_OK
  · cases json_value with
    | none => simp [hc]
    | some p => simp [hc]
  · cases json_value with
    | none => simp [hc]
    | some p => simp [hc]

/-- The process-wide visibility state: the global `g_num_visible` counter
together with each coordinator instance's own `is_visible_` flag
(coordinator `i` is entry `i` of the list; every instance starts
invisible, as the constructor initializes `is_visible_(false)`). -/
structure VisibilityState where
  g_num_visible : Int
  coordinators : List Bool
deriving Repr, DecidableEq

/-- `LocalDiscoveryUIHandler::SetIsVisible` on coordinator `i`: when the
requested value differs from the instance's current flag, bump
`g_num_visible` by `+1`/`-1` and store the flag; otherwise do nothing.
(An out-of-range index is a model artifact and is a no-op.) -/
def setIsVisible (st : VisibilityState) (i : Nat) (visible : Bool) : VisibilityState :=
  match st.coordinators[i]? with
  | none => st
  | some is_visible =>
    if visible ≠ is_visible then
      { g_num_visible := st.g_num_visible + (if visible then 1 else -1)
        coordinators := st.coordinators.set i visible }
    else st

/-- `LocalDiscoveryUIHandler::GetHasVisible`: `g_num_visible != 0`. -/
def getHasVisible (st : VisibilityState) : Bool :=
  st.g_num_visible != 0

/-- Process start: `g_num_visible = 0` and `n` coordinator instances,
all invisible. -/
def initVisibility (n : Nat) : VisibilityState :=
  { g_num_visible := 0, coordinators := List.replicate n false }

/-- Apply a sequence of visibility toggles `(coordinator, value)`. -/
def runVisibility : List (Nat × Bool) → VisibilityState → VisibilityState
  | [], st => st
  | op :: rest, st => runVisibility rest (setIsVisible st op.1 op.2)

/-- The number of currently-visible coordinator instances. -/
def countVisible (st : VisibilityState) : Nat :=
  st.coordinators.countP (fun b => b)

theorem countP_set_int (l : List Bool) :
    ∀ (i : Nat) (cur v : Bool), l[i]? = some cur →
      ((l.set i v).countP (fun b => b) : Int)
        = (l.countP (fun b => b) : Int)
          + (if v then 1 else 0) - (if cur then 1 else 0) := by
  induction l with
  | nil => intro i cur v h; simp at h
  | cons a t ih =>
    intro i cur v h
    cases i with
    | zero =>
      have ha : a = cur := by simpa using h
      subst ha
      simp only [List.set_cons_zero, List.countP_cons]
      push_cast
      cases a <;> cases v <;> simp
    | succ j =>
      have ht : t[j]? = some cur := by simpa using h
      have hrec := ih j cur v ht
      simp only [List.set_cons_succ, List.countP_cons]
      push_cast
      push_cast at hrec
      cases a <;> simp [hrec]
      omega

theorem setIsVisible_invariant (st : VisibilityState) (i : Nat) (v : Bool)
    (h : st.g_num_visible = (countVisible st : Int)) :
    (setIsVisible st i v).g_num_visible
      = (countVisible (setIsVisible st i v) : Int) := by
  cases hg : st.coordinators[i]? with
  | none => simp [setIsVisible, hg, h]
  | some cur =>
    by_cases hv : v = cur
    · simp [setIsVisible, hg, hv, h]
    · simp only [setIsVisible, hg, ne_eq, hv, not_false_iff, if_true]
      unfold countVisible at h ⊢
      rw [h, countP_set_int st.coordinators i cur v hg]
      cases v <;> cases cur <;> simp_all
      omega

theorem runVisibility_invariant (ops : List (Nat × Bool)) :
    ∀ st : VisibilityState, st.g_num_visible = (countVisible st : Int) →
      (runVisibility ops st).g_num_visible
        = (countVisible (runVisibility ops st) : Int) := by
  induction ops with
  | nil => intro st h; exact h
  | cons op rest ih =>
    intro st h
    exact ih _ (setIsVisible_invariant st op.1 op.2 h)

theorem countVisible_init (n : Nat) : countVisible (initVisibility n) = 0 := by
  simp [countVisible, initVisibility]

/-- Claim C9: over every sequence of visibility toggles across
coordinator instances, the process-wide counter equals the number of
currently-visible coordinators; the has-visible query returns true if and
only if that count is nonzero; a toggle that repeats a coordinator's
current value leaves the state (hence the counter) unchanged; and a
toggle that actually flips a coordinator's value changes the counter by
exactly one (`+1` on becoming visible, `-1` on becoming invisible). -/
theorem visibility_counter_correct (n : Nat) (ops : List (Nat × Bool)) :
    ((runVisibility ops (initVisibility n)).g_num_visible
        = (countVisible (runVisibility ops (initVisibility n)) : Int)) ∧
    (getHasVisible (runVisibility ops (initVisibility n)) = true ↔
        0 < countVisible (runVisibility ops (initVisibility n))) ∧
    (∀ (st : VisibilityState) (i : Nat) (v : Bool),
        st.coordinators[i]? = some v → setIsVisible st i v = st) ∧
    (∀ (st : VisibilityState) (i : Nat) (v : Bool),
        st.coordinators[i]? = some (!v) →
          (setIsVisible st i v).g_num_visible
            = st.g_num_visible + (if v then 1 else -1)) := by
  have h0 : (initVisibility n).g_num_visible = (countVisible (initVisibility n) : Int) := by
    rw [countVisible_init n]
    rfl
  have hinv := runVisibility_invariant ops (initVisibility n) h0
  refine ⟨hinv, ?_, ?_, ?_⟩
  · rw [getHasVisible, bne_iff_ne, hinv]
    constructor
    · intro hne
      omega
    · intro hpos
      omega
  · intro st i v hg
    simp [setIsVisible, hg]
  · intro st i v hg
    cases v <;> simp [setIsVisible, hg]

/-- Witness for `visibility_counter_correct`: two coordinators; toggling
the first visible twice then the second visible then the first invisible
leaves the counter equal to the number of visible coordinators; a
repeated identical toggle is a no-op; a genuine flip adds one. -/
theorem visibility_counter_correct_witness :
    ((runVisibility [(0, true), (0, true), (1, true), (0, false)]
        (initVisibility 2)).g_num_visible
      = (countVisible (runVisibility [(0, true), (0, true), (1, true), (0, false)]
          (initVisibility 2)) : Int)) ∧
    setIsVisible { g_num_visible := 1, coordinators := [true] } 0 true
      = { g_num_visible := 1, coordinators := [true] } ∧
    (setIsVisible { g_num_visible := 0, coordinators := [false] } 0 true).g_num_visible
      = 0 + (if true then 1 else -1) := by
  have h := visibility_counter_correct 2 [(0, true), (0, true), (1, true), (0, false)]
  exact ⟨h.1, h.2.2.1 _ 0 true (by decide), h.2.2.2 _ 0 true (by decide)⟩

/-- The resolver call `privet_http_factory_->CreatePrivetHTTP(name,
address, ...)` issued by the handlers: its device name and address. -/
structure ResolveRequest where
  name : String
  address : HostPortPair
deriving Repr, DecidableEq

/-- `LocalDiscoveryUIHandler::HandleInfoRequested`: reads
`device_descriptions_[device_name].address` (an `operator[]` access that
default-inserts an absent key) and starts a resolution bound to the name
and that address. No presentation-layer notification is sent. -/
def handleInfoRequested (s : HandlerState) (device_name : String) :
    HandlerState × ResolveRequest × List WebNotification :=
  let (d, r2) := s.device_descriptions.opIndex device_name
  ({ s with device_descriptions := r2 },
   { name := device_name, address := d.address }, [])

set_option linter.unusedVariables false in
/-- `LocalDiscoveryUIHandler::HandleChooseUser`: stores the chosen index
in `current_register_user_index_`, then reads
`device_descriptions_[current_register_device_].address` (again via
`operator[]`) and starts a resolution for the remembered device. The
chosen display name `user` is only captured for the later register
operation. No presentation-layer notification is sent. -/
def handleChooseUser (s : HandlerState) (index : Int) (user : String) :
    HandlerState × ResolveRequest × List WebNotification :=
  let s1 := { s with current_register_user_index := index }
  let (d, r2) := s1.device_descriptions.opIndex s1.current_register_device
  ({ s1 with device_descriptions := r2 },
   { name := s1.current_register_device, address := d.address }, [])

/-- Claim C10: for a device name not present in the registry, issuing an
info request, a choose-account request (with that name as the remembered
register device), or reading the device's cloud base URL inserts the
default (empty) device description for that name into the registry as a
side effect — mere lookup creates registry membership without any
discovery event and without a presentation-layer notification. -/
theorem lookup_inserts_default (s : HandlerState) (name : String)
    (index : Int) (user : String)
    (h : s.device_descriptions name = none) :
    ((handleInfoRequested s name).1.device_descriptions name
        = some defaultDeviceDescription ∧
      (handleInfoRequested s name).2.2 = []) ∧
    ((getCloudPrintBaseUrl s.device_descriptions name).2 name
        = some defaultDeviceDescription) ∧
    ((handleChooseUser { s with current_register_device := name }
        index user).1.device_descriptions name
        = some defaultDeviceDescription ∧
      (handleChooseUser { s with current_register_device := name }
        index user).2.2 = []) := by
  have hins : (s.device_descriptions.opIndex name).2 name
      = some defaultDeviceDescription := by
    unfold Registry.opIndex
    rw [h]
    simp [Registry.store]
  refine ⟨⟨?_, rfl⟩, ?_, ?_, rfl⟩
  · simpa [handleInfoRequested] using hins
  · simpa [getCloudPrintBaseUrl] using hins
  · simpa [handleChooseUser] using hins

/-- Witness for `lookup_inserts_default`: the empty registry and device
name `"ghost"`; each of the three lookups creates the entry with the
default description and sends nothing. -/
theorem lookup_inserts_default_witness :
    ((handleInfoRequested
        { device_descriptions := fun _ => none
          current_register_device := "ghost"
          current_register_user_index := 0
          xsrf_token_for_primary_user := "" }
        "ghost").1.device_descriptions "ghost"
        = some defaultDeviceDescription ∧
      (handleInfoRequested
        { device_descriptions := fun _ => none
          current_register_device := "ghost"
          current_register_user_index := 0
          xsrf_token_for_primary_user := "" }
        "ghost").2.2 = []) ∧
    ((getCloudPrintBaseUrl (fun _ => none) "ghost").2 "ghost"
        = some defaultDeviceDescription) ∧
    ((handleChooseUser
        { device_descriptions := fun _ => none
          current_register_device := "ghost"
          current_register_user_index := 0
          xsrf_token_for_primary_user := "" }
        1 "u").1.device_descriptions "ghost"
        = some defaultDeviceDescription ∧
      (handleChooseUser
        { device_descriptions := fun _ => none
          current_register_device := "ghost"
          current_register_user_index := 0
          xsrf_token_for_primary_user := "" }
        1 "u").2.2 = []) :=
  lookup_inserts_default
    { device_descriptions := fun _ => none
      current_register_device := "ghost"
      current_register_user_index := 0
      xsrf_token_for_primary_user := "" }
    "ghost" 1 "u" rfl

end LocalDiscovery
